import Mathlib

/-!
Verification of the pyfs filesystem adapter (`src/pyfs/filesystem.py`, class
`PyFS`).  The adapter implements the FUSE operation surface over the resolver
module `pyfs.mapping`, which is not part of the sources; resolver functions and
path constants are therefore modelled from the specification and marked as such.
Machine-level details: errno values and open(2) flag bits use their Linux
values, as the source relies on the `errno`, `os` and `stat` modules there.
-/

namespace PyFS

/-- errno values (Linux).  Signed, because the source negates one of them. -/
def EPERM : Int := 1

/-- errno ENOENT (Linux). -/
def ENOENT : Int := 2

/-- errno EBADFD (Linux), used by the source for bad file handles. -/
def EBADFD : Int := 77

/-- os.O_WRONLY bit (Linux). -/
def O_WRONLY : Nat := 1

/-- os.O_RDWR bit (Linux). -/
def O_RDWR : Nat := 2

/-- os.O_TRUNC bit (Linux). -/
def O_TRUNC : Nat := 0o1000

/-- os.O_APPEND bit (Linux). -/
def O_APPEND : Nat := 0o2000

/-- stat.S_IFDIR. -/
def S_IFDIR : Nat := 0o040000

/-- stat.S_IFREG. -/
def S_IFREG : Nat := 0o100000

/-- stat.S_IFLNK. -/
def S_IFLNK : Nat := 0o120000

/-- stat.S_IFMT, the file-type mask. -/
def S_IFMT : Nat := 0o170000

/-- Modelled from the spec: the module-registry control file, "a single fixed
path at the root", dot-prefixed (constant PATH_MODULES of `pyfs.mapping`,
which is not under src/). -/
def PATH_MODULES : String := "/.modules"

/-- Modelled from the spec: the root prefix for dot-named control files
(constant of `pyfs.mapping`, not under src/; spec: "single-segment
dot-prefixed names reserved for control files at the root"). -/
def PATH_DOT_PRE : String := "/."

/-- Python `needle in hay` for a one-character needle: substring containment
coincides with character membership. -/
def pyIn (needle : Char) (hay : String) : Bool :=
  hay.toList.contains needle

/-- Python `s.startswith(pre)`. -/
def startswith (pre s : String) : Bool :=
  pre.toList.isPrefixOf s.toList

/-- Python 2 whitespace characters stripped by `str.strip()`. -/
def isPySpace (c : Char) : Bool :=
  c = ' ' || c = '\t' || c = '\n' || c = '\r' || c = '\x0b' || c = '\x0c'

/-- Python `data.strip()`: remove leading and trailing whitespace. -/
def pyStrip (s : String) : String :=
  String.mk (((s.toList.dropWhile isPySpace).reverse.dropWhile isPySpace).reverse)

/-- Errors surfaced by the adapter: `fuse.FuseOSError(e)` with its errno,
`IOError(e)`, and the resolver's `CannotResolve` exception when it escapes
uncaught. -/
inductive FSError : Type where
  | fuse (errno : Int)
  | ioerr (errno : Int)
  | cannotResolve
  deriving DecidableEq, Repr

/-- The metadata dict returned by getattr: `st_mode`, `st_nlink`, and
`st_size` when the branch supplies one (directory branches do not). -/
structure Attr : Type where
  st_mode : Nat
  st_nlink : Nat
  st_size : Option Nat
  deriving DecidableEq, Repr

/-- Modelled from the spec: a snapshot of the Resolver (`pyfs.mapping`, not
under src/) at one fixed namespace/registry state.  `get_elements` returns
`none` where the resolver raises `CannotResolve` (spec: the Resolver "raises a
not-found condition rather than guessing" and "never catches its own
failures"). -/
structure Resolver : Type where
  is_dir : String → Bool
  is_file : String → Bool
  is_symlink : String → Bool
  is_executable : String → Bool
  get_content : String → String
  get_elements : String → Option (List String)

/-- The adapter's mutable state: the `count()` cursor for the next handle id,
the open-file table `_flags_for_open_files` (handle id → open flags), and the
module registry of `pyfs.mapping`. -/
structure PyFSState : Type where
  nextFh : Nat
  flagsForOpenFiles : List (Nat × Nat)
  modules : List String
  deriving DecidableEq, Repr

/-- Python dict lookup on the association-list model of
`_flags_for_open_files`. -/
def dictLookup : List (Nat × Nat) → Nat → Option Nat
  | [], _ => none
  | (k, v) :: rest, key => if k = key then some v else dictLookup rest key

/-- Python dict assignment `d[key] = v`: replace an existing binding, else
append. -/
def dictInsert : List (Nat × Nat) → Nat → Nat → List (Nat × Nat)
  | [], key, v => [(key, v)]
  | (k, w) :: rest, key, v =>
    if k = key then (key, v) :: rest else (k, w) :: dictInsert rest key v

/-- Python `del d[key]`. -/
def dictErase : List (Nat × Nat) → Nat → List (Nat × Nat)
  | [], _ => []
  | (k, w) :: rest, key =>
    if k = key then dictErase rest key else (k, w) :: dictErase rest key

/-- Modelled from the spec: `reset_modules_list` of `pyfs.mapping` (not under
src/); "reset (clear to empty)", "reset yields a genuinely empty registry". -/
def reset_modules_list (s : PyFSState) : PyFSState :=
  { s with modules := [] }

/-- Modelled from the spec: `add_module` of `pyfs.mapping` (not under src/);
"load (append, attempt import, idempotent if already present)"; the registry
never contains duplicate names. -/
def add_module (ms : List String) (name : String) : List String :=
  if name ∈ ms then ms else ms ++ [name]

/-- Modelled from the spec: `read_from_string` of `pyfs.mapping` (not under
src/); read "returns up to `size` bytes of `Resolver.content(path)` starting
at `offset`; returns an empty result past end-of-content". -/
def read_from_string (content : String) (size offset : Nat) : String :=
  String.mk ((content.toList.drop offset).take size)

/-- `PyFS.try_to_getattr` (src/pyfs/filesystem.py lines 71-109), with the
resolver calls abstracted into the `Resolver` snapshot. -/
def try_to_getattr (R : Resolver) (path : String) : Except FSError Attr :=
  if path = "/" ∨ path = "/." ∨ path = "/.." then
    .ok { st_mode := S_IFDIR ||| 0o555, st_nlink := 2, st_size := none }
  else if startswith PATH_DOT_PRE path = true ∧ pyIn '.' path = false then
    .ok { st_mode := S_IFREG ||| 0o555, st_nlink := 1,
          st_size := some (R.get_content path).length }
  else if R.is_symlink path then
    .ok { st_mode := S_IFLNK ||| 0o777, st_nlink := 1,
          st_size := some (R.get_content path).length }
  else if R.is_dir path then
    .ok { st_mode := S_IFDIR ||| 0o555, st_nlink := 3, st_size := none }
  else if R.is_file path then
    .ok { st_mode :=
            S_IFREG |||
              (if path = PATH_MODULES then 0o666
               else if R.is_executable path then 0o555
               else 0o444),
          st_nlink := 1,
          st_size := some (R.get_content path).length }
  else
    .error (.fuse ENOENT)

/-- `PyFS.getattr` (lines 64-69): delegates to `try_to_getattr`, turning a
`CannotResolve` escape into `FuseOSError(ENOENT)`. -/
def getattr (R : Resolver) (path : String) : Except FSError Attr :=
  match try_to_getattr R path with
  | .error .cannotResolve => .error (.fuse ENOENT)
  | r => r

/-- `PyFS.read` (lines 111-117). -/
def read (R : Resolver) (path : String) (size offset : Nat) : String :=
  read_from_string (R.get_content path) size offset

/-- `PyFS.readdir` (lines 119-121): chains ".", ".." with
`get_elements(path)`.  There is no exception handler here, so a
`CannotResolve` raised by `get_elements` escapes as-is. -/
def readdir (R : Resolver) (path : String) : Except FSError (List String) :=
  match R.get_elements path with
  | some names => .ok ([".", ".."] ++ names)
  | none => .error .cannotResolve

/-- `PyFS.readlink` (lines 123-125). -/
def readlink (R : Resolver) (path : String) : String :=
  R.get_content path

/-- `PyFS.open` (lines 127-143).  (`open` is a Lean keyword, hence the name.)
The handle allocation after the policy checks is written once per branch;
both branches allocate `nextFh` and record the flags exactly as the
fall-through in the source does. -/
def openOp (s : PyFSState) (path : String) (flags : Nat) :
    Except FSError (Nat × PyFSState) :=
  if path = PATH_MODULES then
    if flags &&& O_RDWR ≠ 0 then .error (.fuse EPERM)
    else
      let s1 := if flags &&& O_TRUNC ≠ 0 then reset_modules_list s else s
      .ok (s1.nextFh,
        { s1 with nextFh := s1.nextFh + 1,
                  flagsForOpenFiles := dictInsert s1.flagsForOpenFiles s1.nextFh flags })
  else
    if flags &&& O_WRONLY ≠ 0 ∨ flags &&& O_RDWR ≠ 0 then .error (.fuse EPERM)
    else
      .ok (s.nextFh,
        { s with nextFh := s.nextFh + 1,
                 flagsForOpenFiles := dictInsert s.flagsForOpenFiles s.nextFh flags })

/-- `PyFS.truncate` (lines 145-151).  Note the source raises `IOError` (not
`FuseOSError`) for a non-zero length on the control file. -/
def truncate (s : PyFSState) (path : String) (length : Int) :
    Except FSError PyFSState :=
  if path ≠ PATH_MODULES then .error (.fuse EPERM)
  else if length ≠ 0 then .error (.ioerr EPERM)
  else .ok (reset_modules_list s)

/-- `PyFS.release` (lines 153-158).  The unused path argument is kept to
mirror the source signature. -/
def release (s : PyFSState) (_path : String) (fh : Nat) :
    Except FSError (Nat × PyFSState) :=
  if dictLookup s.flagsForOpenFiles fh = none then .error (.fuse EBADFD)
  else .ok (fh, { s with flagsForOpenFiles := dictErase s.flagsForOpenFiles fh })

/-- `PyFS.write` (lines 160-169).  The in-place-edit rejection raises
`fuse.FuseOSError(-errno.EPERM)` in the source — with a negated errno, unlike
every other raise in the file; the embedding keeps the sign. -/
def write (s : PyFSState) (_path : String) (data : String) (offset : Int)
    (fh : Nat) : Except FSError (Nat × PyFSState) :=
  match dictLookup s.flagsForOpenFiles fh with
  | none => .error (.fuse EBADFD)
  | some flags =>
    if flags &&& O_APPEND = 0 ∧ offset ≠ 0 then .error (.fuse (-EPERM))
    else
      let s1 :=
        if pyStrip data ≠ "" then { s with modules := add_module s.modules (pyStrip data) }
        else s
      .ok (data.length, s1)

/-- Decidable equality for adapter results, so concrete runs can be checked
by `decide`. -/
instance {ε α : Type} [DecidableEq ε] [DecidableEq α] : DecidableEq (Except ε α) := fun a b =>
  match a, b with
  | .ok x, .ok y => if h : x = y then isTrue (by rw [h]) else isFalse (by simp [h])
  | .ok _, .error _ => isFalse (by simp)
  | .error _, .ok _ => isFalse (by simp)
  | .error e, .error f => if h : e = f then isTrue (by rw [h]) else isFalse (by simp [h])

/-- A small concrete resolver snapshot used to instantiate the theorems: a
library directory `/lib/json` with one callable member, one built-ins symlink,
and the control file with registry content "json\nos". -/
def sampleResolver : Resolver where
  is_dir p := p == "/lib" || p == "/lib/json"
  is_file p := p == PATH_MODULES || p == "/lib/json/dumps"
  is_symlink p := p == "/bin/len"
  is_executable p := p == "/lib/json/dumps"
  get_content p :=
    if p == PATH_MODULES then "json\nos"
    else if p == "/bin/len" then "../lib/__builtin__/len"
    else "def dumps"
  get_elements p := if p == "/lib/json" then some ["dumps"] else none

/-- A concrete adapter state: one handle (id 0, flags 0) open, next id 1,
registry holding "json". -/
def st0 : PyFSState :=
  { nextFh := 1, flagsForOpenFiles := [(0, 0)], modules := ["json"] }

/-- A concrete adapter state with no open handles. -/
def stEmpty : PyFSState :=
  { nextFh := 0, flagsForOpenFiles := [], modules := ["json"] }

theorem dictLookup_insert_self (l : List (Nat × Nat)) (k v : Nat) :
    dictLookup (dictInsert l k v) k = some v := by
  induction l with
  | nil => simp [dictInsert, dictLookup]
  | cons kv rest ih =>
    obtain ⟨k', v'⟩ := kv
    by_cases h : k' = k
    · simp [dictInsert, dictLookup, h]
    · simp [dictInsert, dictLookup, h, ih]

theorem dictLookup_erase_self (l : List (Nat × Nat)) (k : Nat) :
    dictLookup (dictErase l k) k = none := by
  induction l with
  | nil => simp [dictErase, dictLookup]
  | cons kv rest ih =>
    obtain ⟨k', v'⟩ := kv
    by_cases h : k' = k
    · simp [dictErase, h, ih]
    · simp [dictErase, dictLookup, h, ih]

theorem dictLookup_erase_ne (l : List (Nat × Nat)) (k j : Nat) (hj : j ≠ k) :
    dictLookup (dictErase l k) j = dictLookup l j := by
  induction l with
  | nil => simp [dictErase]
  | cons kv rest ih =>
    obtain ⟨k', v'⟩ := kv
    by_cases h : k' = k
    · subst h
      simp [dictErase, dictLookup, Ne.symm hj, ih]
    · simp [dictErase, dictLookup, h, ih]

theorem getattr_eq_try (R : Resolver) (p : String) (a : Attr) :
    getattr R p = .ok a ↔ try_to_getattr R p = .ok a := by
  unfold getattr
  cases h : try_to_getattr R p with
  | ok b => simp
  | error e => cases e <;> simp

/-- C1: the claim states that an in-place write (handle open without the
append flag, non-zero offset) fails with PermissionDenied (EPERM).  The
source instead raises `fuse.FuseOSError(-errno.EPERM)` — the errno negated,
unlike every other raise in the file — so the error carried is not EPERM.
Evaluated at a concrete failing input: handle 0 open with flags 0 (no
O_APPEND), path "/lib/json", data "re", offset 1. -/
theorem write_inplace_negated_errno :
    dictLookup st0.flagsForOpenFiles 0 = some 0 ∧
    (0 : Nat) &&& O_APPEND = 0 ∧
    write st0 "/lib/json" "re" 1 0 = .error (.fuse (-EPERM)) ∧
    FSError.fuse (-EPERM) ≠ FSError.fuse EPERM :=
  ⟨rfl, rfl, by decide, by decide⟩

/-- C2 counterexample: "/nope" does not resolve to a Directory in the sample
resolver (its `get_elements` raises CannotResolve), yet `readdir` does not
fail with NotFound (FuseOSError ENOENT): the CannotResolve escapes raw,
because `PyFS.readdir` — unlike `PyFS.getattr` — has no exception handler. -/
theorem readdir_cannot_resolve_cex :
    sampleResolver.is_dir "/nope" = false ∧
    sampleResolver.get_elements "/nope" = none ∧
    readdir sampleResolver "/nope" = .error .cannotResolve ∧
    FSError.cannotResolve ≠ FSError.fuse ENOENT :=
  ⟨by decide, by decide, by decide, by decide⟩

/-- C2 (amended): for every path on which the Resolver's `get_elements`
raises CannotResolve — per the spec, every path that does not resolve to a
Directory — `readdir` propagates the raw CannotResolve; it is not translated
to NotFound (only `getattr` performs that translation). -/
theorem readdir_propagates_cannot_resolve (R : Resolver) (p : String)
    (h : R.get_elements p = none) :
    readdir R p = .error .cannotResolve := by
  unfold readdir
  rw [h]

/-- Witness for `readdir_propagates_cannot_resolve` at the sample resolver. -/
theorem readdir_propagates_cannot_resolve_w :
    sampleResolver.get_elements "/nope" = none ∧
    readdir sampleResolver "/nope" = .error .cannotResolve :=
  ⟨by decide, readdir_propagates_cannot_resolve sampleResolver "/nope" (by decide)⟩

/-- A path starting with the dot prefix "/." necessarily contains a '.', so
the dot-prefix branch of `try_to_getattr` (line 78 of the source, whose
condition conjoins `startswith("/.")` with `'.' not in path`) is
unreachable. -/
theorem dot_pre_has_dot (p : String) (h : startswith PATH_DOT_PRE p = true) :
    pyIn '.' p = true := by
  unfold startswith at h
  unfold pyIn
  have hpre : PATH_DOT_PRE.toList = ['/', '.'] := rfl
  rw [hpre] at h
  match hl : p.toList with
  | [] => rw [hl] at h; simp [List.isPrefixOf] at h
  | [a] => rw [hl] at h; simp [List.isPrefixOf] at h
  | a :: b :: t =>
    rw [hl] at h
    simp [List.isPrefixOf] at h
    obtain ⟨ha, hb⟩ := h
    subst hb
    simp [List.contains]

/-- C3: getattr on the control-file path returns regular-file metadata with
permission bits 0666, and 0666 is returned for no other path: any other
path's metadata carries permission bits other than 0666, and when it is a
regular file the bits are 0555 exactly if the entity is callable
(`is_executable`) and 0444 exactly if it is a plain value. -/
theorem getattr_file_modes (R : Resolver)
    (hs : R.is_symlink PATH_MODULES = false)
    (hd : R.is_dir PATH_MODULES = false)
    (hf : R.is_file PATH_MODULES = true) :
    (∃ a, getattr R PATH_MODULES = .ok a ∧ a.st_mode = S_IFREG ||| 0o666) ∧
    (∀ p a, p ≠ PATH_MODULES → getattr R p = .ok a →
      a.st_mode &&& 0o777 ≠ 0o666 ∧
      (a.st_mode &&& S_IFMT = S_IFREG →
        (R.is_executable p = true → a.st_mode &&& 0o777 = 0o555) ∧
        (R.is_executable p = false → a.st_mode &&& 0o777 = 0o444))) := by
  constructor
  · refine ⟨{ st_mode := S_IFREG ||| 0o666, st_nlink := 1,
              st_size := some (R.get_content PATH_MODULES).length }, ?_, rfl⟩
    rw [getattr_eq_try]
    unfold try_to_getattr
    rw [if_neg (by decide), if_neg (by decide), if_neg (by simp [hs]),
      if_neg (by simp [hd]), if_pos hf, if_pos rfl]
  · intro p a hp ha
    rw [getattr_eq_try] at ha
    unfold try_to_getattr at ha
    split_ifs at ha with h1 h2 h3 h4 h5 h6
    · injection ha with h; subst h
      exact ⟨by decide, fun hreg => absurd hreg (by decide)⟩
    · exact absurd (dot_pre_has_dot p h2.1) (by simp [h2.2])
    · injection ha with h; subst h
      refine ⟨?_, fun hreg => absurd hreg ?_⟩ <;> (dsimp only; decide)
    · injection ha with h; subst h
      exact ⟨by decide, fun hreg => absurd hreg (by decide)⟩
    · injection ha with h; subst h
      refine ⟨by dsimp only; decide, fun _ => ⟨fun _ => by dsimp only; decide,
        fun hfalse => absurd h6 (by simp [hfalse])⟩⟩
    · injection ha with h; subst h
      refine ⟨by dsimp only; decide, fun _ => ⟨fun htrue => absurd htrue h6,
        fun _ => by dsimp only; decide⟩⟩

/-- Witness for `getattr_file_modes` at the sample resolver. -/
theorem getattr_file_modes_w :
    sampleResolver.is_symlink PATH_MODULES = false ∧
    sampleResolver.is_dir PATH_MODULES = false ∧
    sampleResolver.is_file PATH_MODULES = true ∧
    ((∃ a, getattr sampleResolver PATH_MODULES = .ok a ∧
        a.st_mode = S_IFREG ||| 0o666) ∧
     (∀ p a, p ≠ PATH_MODULES → getattr sampleResolver p = .ok a →
       a.st_mode &&& 0o777 ≠ 0o666 ∧
       (a.st_mode &&& S_IFMT = S_IFREG →
         (sampleResolver.is_executable p = true → a.st_mode &&& 0o777 = 0o555) ∧
         (sampleResolver.is_executable p = false → a.st_mode &&& 0o777 = 0o444)))) :=
  ⟨by decide, by decide, by decide,
   getattr_file_modes sampleResolver (by decide) (by decide) (by decide)⟩

/-- C4: truncate fails with FuseOSError(EPERM) for every path other than the
control file; for the control file with non-zero length it fails with the
I/O-level error value IOError(EPERM); for the control file with length 0 it
succeeds, clearing the module registry to empty and touching nothing else. -/
theorem truncate_policy (s : PyFSState) (path : String) (length : Int) :
    (path ≠ PATH_MODULES → truncate s path length = .error (.fuse EPERM)) ∧
    (path = PATH_MODULES → length ≠ 0 →
      truncate s path length = .error (.ioerr EPERM)) ∧
    (path = PATH_MODULES → length = 0 →
      ∃ s', truncate s path length = .ok s' ∧ s'.modules = [] ∧
        s'.flagsForOpenFiles = s.flagsForOpenFiles ∧ s'.nextFh = s.nextFh) := by
  refine ⟨fun h => ?_, fun hp hl => ?_, fun hp hl => ?_⟩
  · unfold truncate; rw [if_pos h]
  · unfold truncate; rw [if_neg (by simp [hp]), if_pos hl]
  · exact ⟨reset_modules_list s,
      by unfold truncate; rw [if_neg (by simp [hp]), if_neg (by simp [hl])],
      rfl, rfl, rfl⟩

/-- Witness for `truncate_policy` at concrete inputs. -/
theorem truncate_policy_w :
    truncate st0 "/lib" 0 = .error (.fuse EPERM) ∧
    truncate st0 PATH_MODULES 5 = .error (.ioerr EPERM) ∧
    (∃ s', truncate st0 PATH_MODULES 0 = .ok s' ∧ s'.modules = [] ∧
      s'.flagsForOpenFiles = st0.flagsForOpenFiles ∧ s'.nextFh = st0.nextFh) :=
  ⟨(truncate_policy st0 "/lib" 0).1 (by decide),
   (truncate_policy st0 PATH_MODULES 5).2.1 rfl (by decide),
   (truncate_policy st0 PATH_MODULES 0).2.2 rfl rfl⟩

/-- C5: opening any path other than the control file with a write-intent
flag (O_WRONLY or O_RDWR bit set) fails with FuseOSError(EPERM); the check
precedes handle allocation, so no handle is issued and — the state being
threaded through the result — the open-file table and registry are
untouched. -/
theorem open_write_intent_denied (s : PyFSState) (path : String) (flags : Nat)
    (hp : path ≠ PATH_MODULES)
    (hw : flags &&& O_WRONLY ≠ 0 ∨ flags &&& O_RDWR ≠ 0) :
    openOp s path flags = .error (.fuse EPERM) := by
  unfold openOp
  rw [if_neg hp, if_pos hw]

/-- Witness for `open_write_intent_denied`: a write-only open of an ordinary
library path. -/
theorem open_write_intent_denied_w :
    "/lib/json" ≠ PATH_MODULES ∧
    ((1 : Nat) &&& O_WRONLY ≠ 0 ∨ (1 : Nat) &&& O_RDWR ≠ 0) ∧
    openOp st0 "/lib/json" 1 = .error (.fuse EPERM) :=
  ⟨by decide, Or.inl (by decide),
   open_write_intent_denied st0 "/lib/json" 1 (by decide) (Or.inl (by decide))⟩

/-- C6: opening the control file with the read-write-combined flag fails
with FuseOSError(EPERM) (the error path touches no state); every accepted
flag set carrying O_TRUNC clears the registry and then returns the fresh
handle, which records the flags. -/
theorem open_control_file (s : PyFSState) (flags : Nat) :
    (flags &&& O_RDWR ≠ 0 → openOp s PATH_MODULES flags = .error (.fuse EPERM)) ∧
    (flags &&& O_RDWR = 0 → flags &&& O_TRUNC ≠ 0 →
      ∃ s', openOp s PATH_MODULES flags = .ok (s.nextFh, s') ∧
        s'.modules = [] ∧ s'.nextFh = s.nextFh + 1 ∧
        dictLookup s'.flagsForOpenFiles s.nextFh = some flags) := by
  constructor
  · intro h
    unfold openOp
    rw [if_pos rfl, if_pos h]
  · intro h1 h2
    refine ⟨{ nextFh := s.nextFh + 1,
              flagsForOpenFiles := dictInsert s.flagsForOpenFiles s.nextFh flags,
              modules := [] }, ?_, rfl, rfl, dictLookup_insert_self _ _ _⟩
    simp [openOp, reset_modules_list, h1, h2]

/-- Witness for `open_control_file`: flags O_RDWR for rejection, flags
O_WRONLY|O_TRUNC (513) for a truncating open. -/
theorem open_control_file_w :
    ((2 : Nat) &&& O_RDWR ≠ 0 ∧
      openOp st0 PATH_MODULES 2 = .error (.fuse EPERM)) ∧
    (∃ s', openOp st0 PATH_MODULES 513 = .ok (st0.nextFh, s') ∧
      s'.modules = [] ∧ s'.nextFh = st0.nextFh + 1 ∧
      dictLookup s'.flagsForOpenFiles st0.nextFh = some 513) :=
  ⟨⟨by decide, (open_control_file st0 2).1 (by decide)⟩,
   (open_control_file st0 513).2 (by decide) (by decide)⟩

/-- C7: write and release on a handle id absent from the open-file table
both fail with FuseOSError(EBADFD) (the error path touches no state); a
successful release returns the handle id and removes exactly that handle's
entry, leaving every other entry, the registry and the counter unchanged. -/
theorem handle_lifecycle (s : PyFSState) (p1 p2 d : String) (off : Int)
    (fh : Nat) :
    (dictLookup s.flagsForOpenFiles fh = none →
      write s p1 d off fh = .error (.fuse EBADFD) ∧
      release s p2 fh = .error (.fuse EBADFD)) ∧
    (dictLookup s.flagsForOpenFiles fh ≠ none →
      ∃ s', release s p2 fh = .ok (fh, s') ∧
        dictLookup s'.flagsForOpenFiles fh = none ∧
        (∀ k, k ≠ fh →
          dictLookup s'.flagsForOpenFiles k = dictLookup s.flagsForOpenFiles k) ∧
        s'.modules = s.modules ∧ s'.nextFh = s.nextFh) := by
  constructor
  · intro h
    constructor
    · unfold write; rw [h]
    · unfold release; rw [if_pos h]
  · intro h
    unfold release
    rw [if_neg h]
    exact ⟨_, rfl, dictLookup_erase_self _ _,
      fun k hk => dictLookup_erase_ne _ _ _ hk, rfl, rfl⟩

/-- Witness for `handle_lifecycle`: handle 5 was never issued in `st0`,
handle 0 is open. -/
theorem handle_lifecycle_w :
    dictLookup st0.flagsForOpenFiles 5 = none ∧
    (write st0 "/a" "x" 0 5 = .error (.fuse EBADFD) ∧
     release st0 "/a" 5 = .error (.fuse EBADFD)) ∧
    dictLookup st0.flagsForOpenFiles 0 ≠ none ∧
    (∃ s', release st0 "/a" 0 = .ok (0, s') ∧
      dictLookup s'.flagsForOpenFiles 0 = none ∧
      (∀ k, k ≠ 0 →
        dictLookup s'.flagsForOpenFiles k = dictLookup st0.flagsForOpenFiles k) ∧
      s'.modules = st0.modules ∧ s'.nextFh = st0.nextFh) :=
  ⟨rfl, (handle_lifecycle st0 "/a" "/a" "x" 0 5).1 rfl, by decide,
   (handle_lifecycle st0 "/a" "/a" "x" 0 0).2 (by decide)⟩

/-- C8: every write that passes the handle and offset checks returns the
full input length; it registers the whitespace-trimmed data as a module name
when the trimmed data is non-empty and leaves the registry unchanged when
the data is empty or whitespace-only. -/
theorem write_registers_trimmed (s : PyFSState) (p d : String) (off : Int)
    (fh flags : Nat)
    (h : dictLookup s.flagsForOpenFiles fh = some flags)
    (hok : flags &&& O_APPEND ≠ 0 ∨ off = 0) :
    ∃ s', write s p d off fh = .ok (d.length, s') ∧
      (pyStrip d ≠ "" → s'.modules = add_module s.modules (pyStrip d)) ∧
      (pyStrip d = "" → s'.modules = s.modules) := by
  have hcond : ¬ (flags &&& O_APPEND = 0 ∧ off ≠ 0) := by
    rcases hok with h1 | h1
    · exact fun c => h1 c.1
    · exact fun c => c.2 h1
  by_cases ht : pyStrip d = ""
  · refine ⟨s, ?_, fun c => absurd ht c, fun _ => rfl⟩
    simp [write, h, hcond, ht]
  · refine ⟨{ s with modules := add_module s.modules (pyStrip d) }, ?_,
      fun _ => rfl, fun c => absurd c ht⟩
    simp [write, h, hcond, ht]

/-- Witness for `write_registers_trimmed`: handle 0 of `st0` (flags 0),
offset 0, data "re". -/
theorem write_registers_trimmed_w :
    dictLookup st0.flagsForOpenFiles 0 = some 0 ∧
    ((0 : Nat) &&& O_APPEND ≠ 0 ∨ (0 : Int) = 0) ∧
    (∃ s', write st0 PATH_MODULES "re" 0 0 = .ok ("re".length, s') ∧
      (pyStrip "re" ≠ "" → s'.modules = add_module st0.modules (pyStrip "re")) ∧
      (pyStrip "re" = "" → s'.modules = st0.modules)) :=
  ⟨rfl, Or.inr rfl,
   write_registers_trimmed st0 PATH_MODULES "re" 0 0 0 rfl (Or.inr rfl)⟩

/-- C9: for every path whose getattr metadata is that of a regular file
(including the control file) or a symlink, the reported st_size equals the
byte length of the content returned by read over the full range [0, st_size)
at the same resolver snapshot. -/
theorem getattr_size_matches_read (R : Resolver) (p : String) (a : Attr)
    (n : Nat)
    (h : getattr R p = .ok a)
    (hk : a.st_mode &&& S_IFMT = S_IFREG ∨ a.st_mode &&& S_IFMT = S_IFLNK)
    (hs : a.st_size = some n) :
    (read R p n 0).length = n := by
  rw [getattr_eq_try] at h
  unfold try_to_getattr at h
  have key : n = (R.get_content p).length := by
    split_ifs at h
    all_goals try (injection h with h2; subst h2)
    all_goals simp_all
  subst key
  simp [read, read_from_string, List.length_take]

/-- Witness for `getattr_size_matches_read` at the control file of the
sample resolver (content "json\nos", 7 bytes). -/
theorem getattr_size_matches_read_w :
    getattr sampleResolver PATH_MODULES =
      .ok ⟨S_IFREG ||| 0o666, 1, some 7⟩ ∧
    ((S_IFREG ||| 0o666) &&& S_IFMT = S_IFREG ∨
      (S_IFREG ||| 0o666) &&& S_IFMT = S_IFLNK) ∧
    (read sampleResolver PATH_MODULES 7 0).length = 7 :=
  ⟨by decide, Or.inl (by decide),
   getattr_size_matches_read sampleResolver PATH_MODULES
     ⟨S_IFREG ||| 0o666, 1, some 7⟩ 7 (by decide) (Or.inl (by decide)) rfl⟩

/-- C10: write inspects neither its path argument nor the stored flags'
write-intent bits: any handle present in the table — however it was opened —
accepts a write of non-whitespace data at offset 0 and registers the trimmed
data as a module name. -/
theorem write_ignores_path_and_flags (s : PyFSState) (p d : String)
    (fh flags : Nat)
    (h : dictLookup s.flagsForOpenFiles fh = some flags)
    (hd : pyStrip d ≠ "") :
    ∃ s', write s p d 0 fh = .ok (d.length, s') ∧
      s'.modules = add_module s.modules (pyStrip d) := by
  refine ⟨{ s with modules := add_module s.modules (pyStrip d) }, ?_, rfl⟩
  simp [write, h, hd]

/-- Witness for `write_ignores_path_and_flags`: handle 0 of `st0` results
from a read-only (flags 0) open of the ordinary path "/lib/json" in
`stEmpty`; writing " re " through it succeeds and registers "re". -/
theorem write_ignores_path_and_flags_w :
    openOp stEmpty "/lib/json" 0 = .ok (0, st0) ∧
    (∃ s', write st0 "/lib/json" " re " 0 0 = .ok (" re ".length, s') ∧
      s'.modules = add_module st0.modules (pyStrip " re ")) :=
  ⟨by decide,
   write_ignores_path_and_flags st0 "/lib/json" " re " 0 0 rfl (by decide)⟩

end PyFS
